import Mathlib

/-!
Shallow embedding of the WebXR session/frame module of this SDL fork
(`src/gpu/xr/SDL_gpu_webxr.c`, Emscripten branch).

The JavaScript runtime side (`library_sdl_webxr.js`) is an external,
asynchronous collaborator whose source is not part of the repository.
Its per-call answers are modelled by a fixed `Env` record, and its own
session state by the `envSessionState` field of the global state; the
transitions of that field at the lifecycle events are modelled from the
spec (state table of section 4.1 and interface description of section 6).

Machine scalars: C `int` is modelled as `Int`.  The `float`/`double`
cells of views and frames are only ever copied from the environment or
zero-filled by this module, never computed with, so their values are
modelled as `Int` (an opaque payload that has a zero).
-/

namespace WebXR

/-- `SDL_WebXRSessionMode` (header order: INLINE, IMMERSIVE_VR, IMMERSIVE_AR). -/
inductive SessionMode
  | inlineMode
  | immersiveVR
  | immersiveAR
deriving DecidableEq

/-- `SDL_WebXRReferenceSpaceType` (header order). -/
inductive RefSpaceType
  | viewer
  | local
  | localFloor
  | boundedFloor
  | unbounded
deriving DecidableEq

/-- `SDL_WebXRSessionState` (header order). -/
inductive SessionState
  | idle
  | requesting
  | ready
  | running
  | visible
  | visibleBlurred
  | ended
deriving DecidableEq

/-- Numeric value of a session mode, as used to index `g_mode_supported[3]`. -/
def modeIdx : SessionMode → Fin 3
  | .inlineMode => 0
  | .immersiveVR => 1
  | .immersiveAR => 2

/-- Inverse of `modeIdx`. -/
def modeOfIdx : Fin 3 → SessionMode
  | 0 => .inlineMode
  | 1 => .immersiveVR
  | 2 => .immersiveAR

/-- `struct SDL_WebXRSession`.  The C field `initialized` is named
`initDone` here; `refSpaceTypeString` is the `char[32]` buffer, holding
a NUL-terminated string of at most 31 characters. -/
structure Session where
  mode : SessionMode
  refSpaceType : RefSpaceType
  state : SessionState
  refSpaceTypeString : String
  initDone : Bool
deriving DecidableEq

/-- A 4x4 matrix buffer: 16 scalar cells (see the header comment on
scalar modelling). -/
abbrev Mat4 := Fin 16 → Int

/-- A `memset(0)` matrix buffer. -/
def zeroMat : Mat4 := fun _ => 0

/-- `SDL_WebXRView`. -/
structure View where
  projectionMatrix : Mat4
  viewMatrix : Mat4
  viewportX : Int
  viewportY : Int
  viewportWidth : Int
  viewportHeight : Int
deriving DecidableEq

/-- `SDL_WebXRFrame` (`views[2]` is total: the C array always has two
slots, `viewCount` says how many are meaningful). -/
structure Frame where
  predictedDisplayTime : Int
  viewCount : Int
  views : Fin 2 → View
deriving DecidableEq

/-- The fixed per-run answers of the JavaScript environment, one field
per `extern` JS function the C module calls (section 6 of the spec).
`none` in a fetch field models that JS call returning 0 (failure) for
that view index; `mode_support` is the definitive asynchronous answer
the environment's probe callback will deliver for each mode. -/
structure Env where
  is_supported : Bool
  alloc_ok : Bool
  mode_support : SessionMode → Bool
  view_count : Int
  projection : Nat → Option Mat4
  transform : Nat → Option Mat4
  viewport : Nat → Option (Int × Int × Int × Int)

/-- The mutable global state of the C module plus a model heap.
`g_session` is the singleton slot (an address or NULL); `heap` maps the
addresses of live allocations to their contents; `freeLog` records, in
order, every address passed to `SDL_free`; `lastError` is the
`SDL_SetError` slot; `modeCache` is `g_mode_supported[3]`;
`pendingProbes` are the mode probes handed to the environment whose
callback has not yet fired; `envSessionState` is the JS-side session
state that `sdl_webxr_get_session_state` reports. -/
structure XRState where
  g_session : Option Nat
  heap : List (Nat × Session)
  nextAddr : Nat
  freeLog : List Nat
  lastError : Option String
  modeCache : Fin 3 → Int
  pendingProbes : List (Fin 3)
  envSessionState : SessionState

/-- The state at process start: no session, `g_mode_supported` all `-1`. -/
def initState : XRState :=
  { g_session := none
    heap := []
    nextAddr := 0
    freeLog := []
    lastError := none
    modeCache := fun _ => -1
    pendingProbes := []
    envSessionState := .idle }

/-- Heap lookup (pointer dereference). -/
def heapGet : List (Nat × Session) → Nat → Option Session
  | [], _ => none
  | p :: t, a => if p.1 = a then some p.2 else heapGet t a

/-- Write through a pointer: apply `f` to the allocation at address `a`. -/
def heapModify : List (Nat × Session) → Nat → (Session → Session) → List (Nat × Session)
  | [], _, _ => []
  | p :: t, a, f => (if p.1 = a then (p.1, f p.2) else p) :: heapModify t a f

/-- `SDL_free`: the allocation at `a` stops being live. -/
def heapErase (h : List (Nat × Session)) (a : Nat) : List (Nat × Session) :=
  h.filter (fun p => decide (p.1 ≠ a))

/-- `SDL_strlcpy src dst size`: copies at most `size - 1` characters
into the destination buffer and always NUL-terminates, so the stored
string is the truncation of the source to `size - 1` characters. -/
def sdlStrlcpy (src : String) (size : Nat) : String :=
  ⟨src.data.take (size - 1)⟩

/-- `SDL_WebXR_IsAvailable`: `sdl_webxr_is_supported() != 0`. -/
def SDL_WebXR_IsAvailable (env : Env) : Bool :=
  env.is_supported

/-- `webxr_on_session_started` (C callback body): if the singleton
exists, copy the reference-space string (when non-NULL) into the fixed
32-byte buffer with `SDL_strlcpy`, set state RUNNING and the
`initialized` flag. -/
def webxr_on_session_started (st : XRState) (refSpace : Option String) : XRState :=
  match st.g_session with
  | none => st
  | some a =>
    { st with
      heap := heapModify st.heap a (fun s =>
        let s1 := match refSpace with
          | some str => { s with refSpaceTypeString := sdlStrlcpy str 32 }
          | none => s
        { s1 with state := .running, initDone := true }) }

/-- `webxr_on_session_ended` (C callback body). -/
def webxr_on_session_ended (st : XRState) : XRState :=
  match st.g_session with
  | none => st
  | some a =>
    { st with
      heap := heapModify st.heap a (fun s =>
        { s with state := .ended, initDone := false }) }

/-- `webxr_on_session_failed` (C callback body): if the singleton
exists, set state IDLE, clear the `initialized` flag and, when a
message is present, record `SDL_SetError("WebXR session failed: %s")`. -/
def webxr_on_session_failed (st : XRState) (message : Option String) : XRState :=
  match st.g_session with
  | none => st
  | some a =>
    let st1 :=
      { st with
        heap := heapModify st.heap a (fun s =>
          { s with state := .idle, initDone := false }) }
    match message with
    | some m => { st1 with lastError := some ("WebXR session failed: " ++ m) }
    | none => st1

/-- `mode_supported_callback` (C callback body): cache the answer when
the mode index is in range. -/
def mode_supported_callback (st : XRState) (mode : Int) (supported : Int) : XRState :=
  if h : 0 ≤ mode ∧ mode < 3 then
    { st with
      modeCache := Function.update st.modeCache ⟨mode.toNat, by omega⟩ supported }
  else st

/-- Environment event: the asynchronous session-start callback fires.
Modelled from the spec: the environment enters RUNNING when it reports
success (state table, section 4.1), then the C callback runs. -/
def evSessionStarted (st : XRState) (refSpace : Option String) : XRState :=
  webxr_on_session_started { st with envSessionState := .running } refSpace

/-- Environment event: the asynchronous session-end callback fires.
Modelled from the spec: the environment enters ENDED when it reports
end (state table, section 4.1), then the C callback runs. -/
def evSessionEnded (st : XRState) : XRState :=
  webxr_on_session_ended { st with envSessionState := .ended }

/-- Environment event: the asynchronous failure callback fires.
Modelled from the spec: the environment returns to IDLE on failure
(state table, section 4.1), then the C callback runs. -/
def evSessionFailed (st : XRState) (message : Option String) : XRState :=
  webxr_on_session_failed { st with envSessionState := .idle } message

/-- Environment event: the probe callback for mode `m` fires, delivering
the environment's definitive answer.  Modelled from the spec (section 6:
probe `mode -> callback(mode, supported)`); the pending probe is
consumed and the C callback `mode_supported_callback` runs. -/
def evModeSupported (env : Env) (st : XRState) (m : SessionMode) : XRState :=
  let st1 := mode_supported_callback st ((modeIdx m : Fin 3) : Nat)
    (if env.mode_support m then 1 else 0)
  { st1 with pendingProbes := st.pendingProbes.erase (modeIdx m) }

/-- `SDL_WebXR_IsSessionModeSupported`.  Returns
(result, state afterwards, whether an asynchronous probe was triggered
by `sdl_webxr_is_session_supported`). -/
def SDL_WebXR_IsSessionModeSupported (env : Env) (st : XRState) (mode : SessionMode) :
    Bool × XRState × Bool :=
  if SDL_WebXR_IsAvailable env = false then
    (false, st, false)
  else if 0 ≤ st.modeCache (modeIdx mode) then
    (decide (st.modeCache (modeIdx mode) ≠ 0), st, false)
  else
    let st1 := { st with pendingProbes := st.pendingProbes ++ [modeIdx mode] }
    (decide (mode = SessionMode.immersiveVR), st1, true)

/-- `SDL_WebXR_RequestSession`.  Returns (handle or NULL, state
afterwards).  The `envSessionState := .requesting` assignment models
`sdl_webxr_initialize` from the spec (the environment begins the
asynchronous request). -/
def SDL_WebXR_RequestSession (env : Env) (st : XRState)
    (mode : SessionMode) (refSpaceType : RefSpaceType) : Option Nat × XRState :=
  if SDL_WebXR_IsAvailable env = false then
    (none, { st with lastError := some ("WebXR is not available") })
  else if st.g_session.isSome then
    (none, { st with lastError := some ("WebXR session already active") })
  else if env.alloc_ok = false then
    (none, { st with lastError := some ("Out of memory") })
  else
    let a := st.nextAddr
    let sess : Session :=
      { mode := mode
        refSpaceType := refSpaceType
        state := .requesting
        refSpaceTypeString := ""
        initDone := false }
    (some a,
      { st with
        g_session := some a
        heap := (a, sess) :: st.heap
        nextAddr := a + 1
        envSessionState := .requesting })

/-- `SDL_WebXR_GetSessionState`: NULL reads as IDLE; otherwise the
cached state is re-synchronized from `sdl_webxr_get_session_state`
(the environment is the authority) and returned. -/
def SDL_WebXR_GetSessionState (st : XRState) (session : Option Nat) :
    SessionState × XRState :=
  match session with
  | none => (.idle, st)
  | some a =>
    (st.envSessionState,
      { st with heap := heapModify st.heap a (fun s => { s with state := st.envSessionState }) })

/-- `SDL_WebXR_EndSession`: no-op on NULL; otherwise
`sdl_webxr_uninitialize` (modelled from the spec: the environment
returns to IDLE), clear the singleton slot when it equals the argument,
and `SDL_free` the memory (logged unconditionally in `freeLog`). -/
def SDL_WebXR_EndSession (st : XRState) (session : Option Nat) : XRState :=
  match session with
  | none => st
  | some a =>
    let st1 := { st with envSessionState := .idle }
    let st2 := if st1.g_session = some a then { st1 with g_session := none } else st1
    { st2 with heap := heapErase st2.heap a, freeLog := st2.freeLog ++ [a] }

/-- `SDL_WebXR_EndFrame`: a deliberate no-op (the environment
auto-submits the frame). -/
def SDL_WebXR_EndFrame (st : XRState) (session : Option Nat) : XRState :=
  match session with
  | none => st
  | some _ => st

/-- The body of the per-view loop of `SDL_WebXR_BeginFrame` for one
index: each of the three fetches is independent, and a failing fetch
zero-fills only its own field. -/
def fetchView (env : Env) (i : Nat) : View :=
  let proj := match env.projection i with
    | some m => m
    | none => zeroMat
  let vm := match env.transform i with
    | some m => m
    | none => zeroMat
  match env.viewport i with
  | some q =>
    { projectionMatrix := proj, viewMatrix := vm
      viewportX := q.1, viewportY := q.2.1
      viewportWidth := q.2.2.1, viewportHeight := q.2.2.2 }
  | none =>
    { projectionMatrix := proj, viewMatrix := vm
      viewportX := 0, viewportY := 0
      viewportWidth := 0, viewportHeight := 0 }

/-- Write `views[i]` of a frame (in-range indices only; the loop only
uses indices below the clamped view count, which is at most 2). -/
def writeView (f : Frame) (i : Nat) (v : View) : Frame :=
  if h : i < 2 then { f with views := Function.update f.views ⟨i, h⟩ v } else f

/-- The per-view loop of `SDL_WebXR_BeginFrame`: fills `views[0]` up to
`views[n-1]` from the environment. -/
def beginFrameLoop (env : Env) (f : Frame) : Nat → Frame
  | 0 => f
  | n + 1 => writeView (beginFrameLoop env f n) n (fetchView env n)

/-- `SDL_WebXR_BeginFrame`.  The `Option` arguments model the two
pointers (NULL = `none`); the returned `Option Frame` is the contents
of the caller's frame buffer after the call.  Returns
(result, global state afterwards, frame buffer afterwards). -/
def SDL_WebXR_BeginFrame (env : Env) (st : XRState)
    (session : Option Nat) (frame : Option Frame) :
    Bool × XRState × Option Frame :=
  match session, frame with
  | none, _ => (false, st, frame)
  | some _, none => (false, st, none)
  | some p, some f =>
    let r := SDL_WebXR_GetSessionState st (some p)
    let state := r.1
    let st1 := r.2
    if state ≠ SessionState.running ∧ state ≠ SessionState.visible ∧
        state ≠ SessionState.visibleBlurred then
      (false, st1, some f)
    else
      let f1 := { f with viewCount := env.view_count }
      if f1.viewCount ≤ 0 then
        (false, st1, some f1)
      else
        let f2 := if f1.viewCount > 2 then { f1 with viewCount := 2 } else f1
        let f3 := beginFrameLoop env f2 f2.viewCount.toNat
        (true, st1, some { f3 with predictedDisplayTime := 0 })

/-- `SDL_WebXR_BindGPUDevice`: validates the two handles (the device is
modelled as `Option Unit`, an opaque possibly-NULL pointer); the
binding itself happens on the environment side. -/
def SDL_WebXR_BindGPUDevice (st : XRState) (session : Option Nat)
    (device : Option Unit) : Bool × XRState :=
  match session, device with
  | none, _ => (false, { st with lastError := some ("Invalid session or device") })
  | some _, none => (false, { st with lastError := some ("Invalid session or device") })
  | some _, some _ => (true, st)

/-- One step of the whole system: any public API call with any
arguments, or any environment callback event (probe callbacks fire only
for a probe actually handed to the environment). -/
inductive Step (env : Env) : XRState → XRState → Prop
  | request (st : XRState) (m : SessionMode) (r : RefSpaceType) :
      Step env st (SDL_WebXR_RequestSession env st m r).2
  | isMode (st : XRState) (m : SessionMode) :
      Step env st (SDL_WebXR_IsSessionModeSupported env st m).2.1
  | getState (st : XRState) (p : Option Nat) :
      Step env st (SDL_WebXR_GetSessionState st p).2
  | endSession (st : XRState) (p : Option Nat) :
      Step env st (SDL_WebXR_EndSession st p)
  | begin (st : XRState) (p : Option Nat) (f : Option Frame) :
      Step env st (SDL_WebXR_BeginFrame env st p f).2.1
  | endFrame (st : XRState) (p : Option Nat) :
      Step env st (SDL_WebXR_EndFrame st p)
  | bind (st : XRState) (p : Option Nat) (d : Option Unit) :
      Step env st (SDL_WebXR_BindGPUDevice st p d).2
  | started (st : XRState) (s : Option String) :
      Step env st (evSessionStarted st s)
  | ended (st : XRState) :
      Step env st (evSessionEnded st)
  | failed (st : XRState) (s : Option String) :
      Step env st (evSessionFailed st s)
  | modeCb (st : XRState) (m : SessionMode) (h : modeIdx m ∈ st.pendingProbes) :
      Step env st (evModeSupported env st m)

/-- The states of actual runs: reachable from process start by API
calls and environment events. -/
inductive Reachable (env : Env) : XRState → Prop
  | init : Reachable env initState
  | step {st st' : XRState} : Reachable env st → Step env st st' →
      Reachable env st'

/-- The view slot `i` of the frame buffer behind an `Option Frame`. -/
def getView : Option Frame → Fin 2 → Option View
  | none, _ => none
  | some f, i => some (f.views i)

/-- The clamp applied by `SDL_WebXR_BeginFrame` to the reported view
count: at most 2 (stereo ceiling). -/
def clampCount (n : Int) : Int :=
  if n > 2 then 2 else n

/-- A zero-filled view, for concrete frame buffers. -/
def zeroView : View :=
  { projectionMatrix := zeroMat, viewMatrix := zeroMat
    viewportX := 0, viewportY := 0, viewportWidth := 0, viewportHeight := 0 }

/-- A zero-initialized caller frame buffer. -/
def frame0 : Frame :=
  { predictedDisplayTime := 0, viewCount := 0, views := fun _ => zeroView }

/-- A caller frame buffer with a nonzero stale view count. -/
def frame5 : Frame :=
  { frame0 with viewCount := 5 }

/-- A concrete supportive environment. -/
def env0 : Env :=
  { is_supported := true, alloc_ok := true, mode_support := fun _ => true
    view_count := 2, projection := fun _ => none, transform := fun _ => none
    viewport := fun _ => none }

/-- Environment reporting three views. -/
def env3 : Env :=
  { env0 with view_count := 3 }

/-- Environment where the projection fetch succeeds for view 0 and
fails for view 1, the transform fetch succeeds for both views, and the
viewport fetch succeeds only for view 0. -/
def env6 : Env :=
  { env0 with
    projection := fun i => if i = 0 then some (fun _ => 7) else none
    transform := fun _ => some (fun _ => 3)
    viewport := fun i => if i = 0 then some (1, 2, 3, 4) else none }

/-- Environment reporting a negative view count. -/
def envNeg : Env :=
  { env0 with view_count := -1 }

/-- A state whose environment-side session state is RUNNING. -/
def stRun : XRState :=
  { initState with envSessionState := .running }

/-- The state right after a successful session request at process start. -/
def st1 : XRState :=
  (SDL_WebXR_RequestSession env0 initState .immersiveVR .localFloor).2

/-- The freshly-allocated session of `st1`. -/
def sess0 : Session :=
  { mode := .immersiveVR, refSpaceType := .localFloor, state := .requesting
    refSpaceTypeString := "", initDone := false }

/-- The state after a first `IsSessionModeSupported` call for the
inline mode triggered a probe. -/
def stProbe : XRState :=
  (SDL_WebXR_IsSessionModeSupported env0 initState .inlineMode).2.1

/-- The state after the environment's probe callback for the inline
mode has delivered its answer. -/
def stCached : XRState :=
  evModeSupported env0 stProbe .inlineMode

/-- A reference-space string longer than the 32-byte buffer. -/
def longRefSpace : String :=
  "this-reference-space-string-is-longer-than-the-buffer"

/-- The system invariant maintained by every run: a live singleton or a
cached or pending probe answer exists only if the environment reported
XR support, and a cached probe answer is the environment's definitive
answer for that mode. -/
def Inv (env : Env) (st : XRState) : Prop :=
  (st.g_session.isSome = true → env.is_supported = true)
  ∧ (∀ i : Fin 3, i ∈ st.pendingProbes → env.is_supported = true)
  ∧ (∀ i : Fin 3, st.modeCache i ≠ -1 →
      env.is_supported = true ∧
      st.modeCache i = (if env.mode_support (modeOfIdx i) then 1 else 0))

theorem modeOfIdx_modeIdx (m : SessionMode) : modeOfIdx (modeIdx m) = m := by
  cases m <;> rfl

theorem heapGet_heapModify (h : List (Nat × Session)) (a : Nat) (f : Session → Session) :
    heapGet (heapModify h a f) a = (heapGet h a).map f := by
  induction h with
  | nil => rfl
  | cons p t ih =>
    by_cases hp : p.1 = a
    · simp [heapGet, heapModify, hp]
    · simp [heapGet, heapModify, hp, ih]

theorem writeView_viewCount (f : Frame) (i : Nat) (v : View) :
    (writeView f i v).viewCount = f.viewCount := by
  unfold writeView
  split <;> rfl

theorem writeView_views (f : Frame) (k : Nat) (v : View) (i : Fin 2) :
    (writeView f k v).views i = if (i : Nat) = k then v else f.views i := by
  unfold writeView
  split
  next hk =>
    dsimp only
    by_cases he : (i : Nat) = k
    · have hi2 : i = ⟨k, hk⟩ := Fin.ext he
      rw [if_pos he, hi2, Function.update_same]
    · have hne : i ≠ ⟨k, hk⟩ := fun hh => he (by rw [hh])
      rw [Function.update_noteq hne, if_neg he]
  next hk =>
    have hne : (i : Nat) ≠ k := by have := i.isLt; omega
    rw [if_neg hne]

theorem beginFrameLoop_viewCount (env : Env) (f : Frame) (n : Nat) :
    (beginFrameLoop env f n).viewCount = f.viewCount := by
  induction n with
  | zero => rfl
  | succ k ih => simp [beginFrameLoop, writeView_viewCount, ih]

theorem beginFrameLoop_views (env : Env) (f : Frame) (n : Nat) (i : Fin 2)
    (hi : (i : Nat) < n) :
    (beginFrameLoop env f n).views i = fetchView env i := by
  induction n with
  | zero => omega
  | succ k ih =>
    simp only [beginFrameLoop, writeView_views]
    by_cases he : (i : Nat) = k
    · simp [he]
    · have : (i : Nat) < k := by omega
      simp [he, ih this]

theorem inv_of_fields (env : Env) {st st' : XRState}
    (hg : st'.g_session = st.g_session)
    (hp : st'.pendingProbes = st.pendingProbes)
    (hm : st'.modeCache = st.modeCache) (h : Inv env st) : Inv env st' := by
  obtain ⟨h1, h2, h3⟩ := h
  exact ⟨by rw [hg]; exact h1, by rw [hp]; exact h2, by rw [hm]; exact h3⟩

theorem getSessionState_fields (st : XRState) (p : Option Nat) :
    (SDL_WebXR_GetSessionState st p).2.g_session = st.g_session
    ∧ (SDL_WebXR_GetSessionState st p).2.pendingProbes = st.pendingProbes
    ∧ (SDL_WebXR_GetSessionState st p).2.modeCache = st.modeCache := by
  cases p <;> exact ⟨rfl, rfl, rfl⟩

theorem beginFrame_fields (env : Env) (st : XRState) (p : Option Nat) (f : Option Frame) :
    (SDL_WebXR_BeginFrame env st p f).2.1.g_session = st.g_session
    ∧ (SDL_WebXR_BeginFrame env st p f).2.1.pendingProbes = st.pendingProbes
    ∧ (SDL_WebXR_BeginFrame env st p f).2.1.modeCache = st.modeCache := by
  cases p with
  | none => exact ⟨rfl, rfl, rfl⟩
  | some a =>
    cases f with
    | none => exact ⟨rfl, rfl, rfl⟩
    | some fr =>
      by_cases c1 : st.envSessionState ≠ SessionState.running ∧
          st.envSessionState ≠ SessionState.visible ∧
          st.envSessionState ≠ SessionState.visibleBlurred
      · simp [SDL_WebXR_BeginFrame, SDL_WebXR_GetSessionState, c1]
      · by_cases c2 : env.view_count ≤ 0
        · simp [SDL_WebXR_BeginFrame, SDL_WebXR_GetSessionState, c1, c2]
        · simp [SDL_WebXR_BeginFrame, SDL_WebXR_GetSessionState, c1, c2]

theorem endFrame_fields (st : XRState) (p : Option Nat) :
    SDL_WebXR_EndFrame st p = st := by
  cases p <;> rfl

theorem bindGPUDevice_fields (st : XRState) (p : Option Nat) (d : Option Unit) :
    (SDL_WebXR_BindGPUDevice st p d).2.g_session = st.g_session
    ∧ (SDL_WebXR_BindGPUDevice st p d).2.pendingProbes = st.pendingProbes
    ∧ (SDL_WebXR_BindGPUDevice st p d).2.modeCache = st.modeCache := by
  cases p <;> cases d <;> exact ⟨rfl, rfl, rfl⟩

theorem evSessionStarted_fields (st : XRState) (s : Option String) :
    (evSessionStarted st s).g_session = st.g_session
    ∧ (evSessionStarted st s).pendingProbes = st.pendingProbes
    ∧ (evSessionStarted st s).modeCache = st.modeCache := by
  unfold evSessionStarted webxr_on_session_started
  cases hg : st.g_session <;> simp [hg]

theorem evSessionEnded_fields (st : XRState) :
    (evSessionEnded st).g_session = st.g_session
    ∧ (evSessionEnded st).pendingProbes = st.pendingProbes
    ∧ (evSessionEnded st).modeCache = st.modeCache := by
  unfold evSessionEnded webxr_on_session_ended
  cases hg : st.g_session <;> simp [hg]

theorem evSessionFailed_fields (st : XRState) (s : Option String) :
    (evSessionFailed st s).g_session = st.g_session
    ∧ (evSessionFailed st s).pendingProbes = st.pendingProbes
    ∧ (evSessionFailed st s).modeCache = st.modeCache := by
  unfold evSessionFailed webxr_on_session_failed
  cases hg : st.g_session <;> cases s <;> simp [hg]

theorem evModeSupported_modeCache (env : Env) (st : XRState) (m : SessionMode) :
    (evModeSupported env st m).modeCache
      = Function.update st.modeCache (modeIdx m)
          (if env.mode_support m then 1 else 0) := by
  cases m <;> rfl

theorem evModeSupported_gSession (env : Env) (st : XRState) (m : SessionMode) :
    (evModeSupported env st m).g_session = st.g_session := by
  cases m <;> rfl

theorem evModeSupported_pending (env : Env) (st : XRState) (m : SessionMode) :
    (evModeSupported env st m).pendingProbes = st.pendingProbes.erase (modeIdx m) := by
  cases m <;> rfl

theorem requestSession_cachePending (env : Env) (st : XRState)
    (m : SessionMode) (r : RefSpaceType) :
    (SDL_WebXR_RequestSession env st m r).2.pendingProbes = st.pendingProbes
    ∧ (SDL_WebXR_RequestSession env st m r).2.modeCache = st.modeCache := by
  unfold SDL_WebXR_RequestSession
  by_cases c1 : SDL_WebXR_IsAvailable env = false
  · rw [if_pos c1]; exact ⟨rfl, rfl⟩
  · rw [if_neg c1]
    by_cases c2 : st.g_session.isSome = true
    · rw [if_pos c2]; exact ⟨rfl, rfl⟩
    · rw [if_neg c2]
      by_cases c3 : env.alloc_ok = false
      · rw [if_pos c3]; exact ⟨rfl, rfl⟩
      · rw [if_neg c3]; exact ⟨rfl, rfl⟩

theorem isModeSupported_cacheSession (env : Env) (st : XRState) (m : SessionMode) :
    (SDL_WebXR_IsSessionModeSupported env st m).2.1.g_session = st.g_session
    ∧ (SDL_WebXR_IsSessionModeSupported env st m).2.1.modeCache = st.modeCache := by
  unfold SDL_WebXR_IsSessionModeSupported
  by_cases c1 : SDL_WebXR_IsAvailable env = false
  · rw [if_pos c1]; exact ⟨rfl, rfl⟩
  · rw [if_neg c1]
    by_cases c2 : 0 ≤ st.modeCache (modeIdx m)
    · rw [if_pos c2]; exact ⟨rfl, rfl⟩
    · rw [if_neg c2]; exact ⟨rfl, rfl⟩

theorem endSession_some_gSession (st : XRState) (a : Nat) :
    (SDL_WebXR_EndSession st (some a)).g_session
      = (if st.g_session = some a then none else st.g_session) := by
  unfold SDL_WebXR_EndSession
  by_cases hg : st.g_session = some a <;> simp [hg]

theorem endSession_cachePending (st : XRState) (p : Option Nat) :
    (SDL_WebXR_EndSession st p).pendingProbes = st.pendingProbes
    ∧ (SDL_WebXR_EndSession st p).modeCache = st.modeCache := by
  cases p with
  | none => exact ⟨rfl, rfl⟩
  | some a =>
    unfold SDL_WebXR_EndSession
    by_cases hg : st.g_session = some a <;> simp [hg]

theorem inv_init (env : Env) : Inv env initState := by
  refine ⟨?_, ?_, ?_⟩
  · intro h; simp [initState] at h
  · intro i hi; simp [initState] at hi
  · intro i hi; simp [initState] at hi

theorem inv_step (env : Env) {st st' : XRState}
    (h : Inv env st) (hs : Step env st st') : Inv env st' := by
  obtain ⟨h1, h2, h3⟩ := h
  cases hs with
  | request m r =>
    unfold SDL_WebXR_RequestSession
    by_cases c1 : SDL_WebXR_IsAvailable env = false
    · rw [if_pos c1]; exact ⟨h1, h2, h3⟩
    · rw [if_neg c1]
      by_cases c2 : st.g_session.isSome = true
      · rw [if_pos c2]; exact ⟨h1, h2, h3⟩
      · rw [if_neg c2]
        by_cases c3 : env.alloc_ok = false
        · rw [if_pos c3]; exact ⟨h1, h2, h3⟩
        · rw [if_neg c3]
          refine ⟨fun _ => ?_, h2, h3⟩
          simpa [SDL_WebXR_IsAvailable] using c1
  | isMode m =>
    unfold SDL_WebXR_IsSessionModeSupported
    by_cases c1 : SDL_WebXR_IsAvailable env = false
    · rw [if_pos c1]; exact ⟨h1, h2, h3⟩
    · rw [if_neg c1]
      by_cases c2 : 0 ≤ st.modeCache (modeIdx m)
      · rw [if_pos c2]; exact ⟨h1, h2, h3⟩
      · rw [if_neg c2]
        refine ⟨h1, ?_, h3⟩
        intro i hi
        rcases List.mem_append.1 hi with hm | hm
        · exact h2 i hm
        · simpa [SDL_WebXR_IsAvailable] using c1
  | getState p =>
    obtain ⟨e1, e2, e3⟩ := getSessionState_fields st p
    exact inv_of_fields env e1 e2 e3 ⟨h1, h2, h3⟩
  | endSession p =>
    cases p with
    | none => exact ⟨h1, h2, h3⟩
    | some a =>
      obtain ⟨e2, e3⟩ := endSession_cachePending st (some a)
      refine ⟨?_, by rw [e2]; exact h2, by rw [e3]; exact h3⟩
      rw [endSession_some_gSession]
      by_cases hg : st.g_session = some a
      · rw [if_pos hg]; intro hh; simp at hh
      · rw [if_neg hg]; exact h1
  | begin p f =>
    obtain ⟨e1, e2, e3⟩ := beginFrame_fields env st p f
    exact inv_of_fields env e1 e2 e3 ⟨h1, h2, h3⟩
  | endFrame p =>
    rw [endFrame_fields st p]
    exact ⟨h1, h2, h3⟩
  | bind p d =>
    obtain ⟨e1, e2, e3⟩ := bindGPUDevice_fields st p d
    exact inv_of_fields env e1 e2 e3 ⟨h1, h2, h3⟩
  | started s =>
    obtain ⟨e1, e2, e3⟩ := evSessionStarted_fields st s
    exact inv_of_fields env e1 e2 e3 ⟨h1, h2, h3⟩
  | ended =>
    obtain ⟨e1, e2, e3⟩ := evSessionEnded_fields st
    exact inv_of_fields env e1 e2 e3 ⟨h1, h2, h3⟩
  | failed s =>
    obtain ⟨e1, e2, e3⟩ := evSessionFailed_fields st s
    exact inv_of_fields env e1 e2 e3 ⟨h1, h2, h3⟩
  | modeCb m hmem =>
    refine ⟨?_, ?_, ?_⟩
    · rw [evModeSupported_gSession]; exact h1
    · rw [evModeSupported_pending]
      intro i hi
      exact h2 i (List.mem_of_mem_erase hi)
    · rw [evModeSupported_modeCache]
      intro i hi
      by_cases he : i = modeIdx m
      · subst he
        rw [Function.update_same]
        rw [modeOfIdx_modeIdx]
        refine ⟨h2 _ hmem, ?_⟩
        cases env.mode_support m <;> simp
      · rw [Function.update_noteq he] at hi ⊢
        exact h3 i hi

theorem reachable_inv (env : Env) {st : XRState} (h : Reachable env st) :
    Inv env st := by
  induction h with
  | init => exact inv_init env
  | step hr hs ih => exact inv_step env ih hs

theorem beginFrame_valid_eq (env : Env) (st : XRState) (a : Nat) (f : Frame)
    (hns : ¬ (st.envSessionState ≠ SessionState.running ∧
      st.envSessionState ≠ SessionState.visible ∧
      st.envSessionState ≠ SessionState.visibleBlurred))
    (hv0 : ¬ env.view_count ≤ 0) :
    SDL_WebXR_BeginFrame env st (some a) (some f)
      = (true, (SDL_WebXR_GetSessionState st (some a)).2,
          some { beginFrameLoop env { f with viewCount := clampCount env.view_count }
                   (clampCount env.view_count).toNat with
                 predictedDisplayTime := 0 }) := by
  simp only [SDL_WebXR_BeginFrame, SDL_WebXR_GetSessionState]
  rw [if_neg hns, if_neg hv0]
  by_cases h2 : env.view_count > 2 <;> simp [clampCount, h2]

/-- C1: in every reachable state in which the session singleton exists,
a further `SDL_WebXR_RequestSession` call fails: it returns NULL, sets
the AlreadyActive error message, and leaves the singleton slot and the
whole heap — hence every field (mode, refSpaceType, state,
refSpaceTypeString, initialized) of the existing session — unchanged. -/
theorem C1_requestSession_secondActive (env : Env) (st : XRState) (a : Nat)
    (m : SessionMode) (r : RefSpaceType)
    (hre : Reachable env st) (hs : st.g_session = some a) :
    (SDL_WebXR_RequestSession env st m r).1 = none
    ∧ (SDL_WebXR_RequestSession env st m r).2.lastError
        = some ("WebXR session already active")
    ∧ (SDL_WebXR_RequestSession env st m r).2.g_session = st.g_session
    ∧ (SDL_WebXR_RequestSession env st m r).2.heap = st.heap
    ∧ heapGet (SDL_WebXR_RequestSession env st m r).2.heap a = heapGet st.heap a := by
  obtain ⟨h1, _, _⟩ := reachable_inv env hre
  have hsup : env.is_supported = true := h1 (by rw [hs]; rfl)
  have hc1 : ¬ SDL_WebXR_IsAvailable env = false := by
    simp [SDL_WebXR_IsAvailable, hsup]
  have hc2 : st.g_session.isSome = true := by rw [hs]; rfl
  unfold SDL_WebXR_RequestSession
  rw [if_neg hc1, if_pos hc2]
  exact ⟨rfl, rfl, rfl, rfl, rfl⟩

/-- C1 witness: a concrete reachable state holding a session (obtained
by one successful request from process start) makes the second request
fail without touching the existing session. -/
theorem C1_requestSession_secondActive_witness :
    st1.g_session = some 0
    ∧ ((SDL_WebXR_RequestSession env0 st1 .inlineMode .viewer).1 = none
      ∧ (SDL_WebXR_RequestSession env0 st1 .inlineMode .viewer).2.lastError
          = some ("WebXR session already active")
      ∧ (SDL_WebXR_RequestSession env0 st1 .inlineMode .viewer).2.g_session
          = st1.g_session
      ∧ (SDL_WebXR_RequestSession env0 st1 .inlineMode .viewer).2.heap = st1.heap
      ∧ heapGet (SDL_WebXR_RequestSession env0 st1 .inlineMode .viewer).2.heap 0
          = heapGet st1.heap 0) :=
  ⟨by decide,
    C1_requestSession_secondActive env0 st1 0 .inlineMode .viewer
      (Reachable.step Reachable.init
        (Step.request initState .immersiveVR .localFloor))
      (by decide)⟩

/-- C2: `SDL_WebXR_BeginFrame` with a NULL session, a NULL frame
pointer, or a freshly re-synchronized session state outside
RUNNING/VISIBLE/VISIBLE_BLURRED (that is, IDLE, REQUESTING, READY or
ENDED) returns false and leaves the caller's frame buffer entirely
untouched. -/
theorem C2_beginFrame_invalid (env : Env) (st : XRState)
    (p : Option Nat) (f : Option Frame)
    (h : p = none ∨ f = none ∨
      st.envSessionState = SessionState.idle ∨
      st.envSessionState = SessionState.requesting ∨
      st.envSessionState = SessionState.ready ∨
      st.envSessionState = SessionState.ended) :
    (SDL_WebXR_BeginFrame env st p f).1 = false
    ∧ (SDL_WebXR_BeginFrame env st p f).2.2 = f := by
  rcases h with h | h | h | h | h | h
  · subst h; exact ⟨rfl, rfl⟩
  · subst h; cases p <;> exact ⟨rfl, rfl⟩
  all_goals
    cases p with
    | none => exact ⟨rfl, rfl⟩
    | some a =>
      cases f with
      | none => exact ⟨rfl, rfl⟩
      | some fr => simp [SDL_WebXR_BeginFrame, SDL_WebXR_GetSessionState, h]

/-- C2 witness: at process start (state IDLE) a `BeginFrame` call with
non-NULL pointers fails and leaves the zeroed frame unchanged. -/
theorem C2_beginFrame_invalid_witness :
    initState.envSessionState = SessionState.idle
    ∧ ((SDL_WebXR_BeginFrame env0 initState (some 0) (some frame0)).1 = false
      ∧ (SDL_WebXR_BeginFrame env0 initState (some 0) (some frame0)).2.2
          = some frame0) :=
  ⟨rfl,
    C2_beginFrame_invalid env0 initState (some 0) (some frame0)
      (Or.inr (Or.inr (Or.inl rfl)))⟩

/-- C3: `SDL_WebXR_RequestSession` with no session active, a supportive
environment and a successful allocation returns a non-NULL handle whose
session has state REQUESTING, the requested mode and reference-space
type, and a cleared initialized flag. -/
theorem C3_requestSession_fresh (env : Env) (st : XRState)
    (m : SessionMode) (r : RefSpaceType)
    (h0 : st.g_session = none) (h1 : env.is_supported = true)
    (h2 : env.alloc_ok = true) :
    (SDL_WebXR_RequestSession env st m r).1 = some st.nextAddr
    ∧ (SDL_WebXR_RequestSession env st m r).2.g_session = some st.nextAddr
    ∧ heapGet (SDL_WebXR_RequestSession env st m r).2.heap st.nextAddr
        = some { mode := m, refSpaceType := r, state := SessionState.requesting
                 refSpaceTypeString := "", initDone := false } := by
  have hc1 : ¬ SDL_WebXR_IsAvailable env = false := by
    simp [SDL_WebXR_IsAvailable, h1]
  have hc2 : ¬ st.g_session.isSome = true := by rw [h0]; simp
  have hc3 : ¬ env.alloc_ok = false := by simp [h2]
  unfold SDL_WebXR_RequestSession
  rw [if_neg hc1, if_neg hc2, if_neg hc3]
  refine ⟨rfl, rfl, ?_⟩
  simp [heapGet]

/-- C3 witness: the first request from process start succeeds and
allocates the session in REQUESTING state with the arguments stored. -/
theorem C3_requestSession_fresh_witness :
    (initState.g_session = none ∧ env0.is_supported = true
      ∧ env0.alloc_ok = true)
    ∧ ((SDL_WebXR_RequestSession env0 initState .immersiveVR .localFloor).1
          = some 0
      ∧ (SDL_WebXR_RequestSession env0 initState .immersiveVR .localFloor).2.g_session
          = some 0
      ∧ heapGet (SDL_WebXR_RequestSession env0 initState .immersiveVR .localFloor).2.heap 0
          = some sess0) :=
  ⟨⟨rfl, rfl, rfl⟩,
    C3_requestSession_fresh env0 initState .immersiveVR .localFloor rfl rfl rfl⟩

/-- C4 counterexample: calling `SDL_WebXR_EndSession` twice with the
same non-NULL (already freed) handle passes that address to `SDL_free`
twice — a double free — because the free is unconditional for non-NULL
input.  The claim that the second call "must not double-free" is
therefore false on the code: here address 0 appears twice in the log of
`SDL_free` calls. -/
theorem C4_endSession_counterexample :
    (SDL_WebXR_RequestSession env0 initState .immersiveVR .localFloor).1 = some 0
    ∧ (SDL_WebXR_EndSession (SDL_WebXR_EndSession st1 (some 0)) (some 0)).freeLog
        = [0, 0]
    ∧ ((SDL_WebXR_EndSession (SDL_WebXR_EndSession st1 (some 0)) (some 0)).freeLog.count 0
        = 2) := by
  decide

/-- C4 amended: `SDL_WebXR_EndSession` is a no-op on NULL input; on a
non-NULL handle it clears the singleton slot exactly when the slot
equals the argument, removes the allocation and passes the address to
`SDL_free`.  A second call on the same stale handle never corrupts the
singleton slot, but it does pass the handle to `SDL_free` a second time
(a double free); the safe idempotent pattern is nulling the reference
and passing NULL, which is a no-op. -/
theorem C4_endSession_amended (st : XRState) (a : Nat) :
    SDL_WebXR_EndSession st none = st
    ∧ (SDL_WebXR_EndSession st (some a)).g_session
        = (if st.g_session = some a then none else st.g_session)
    ∧ (SDL_WebXR_EndSession st (some a)).heap = heapErase st.heap a
    ∧ (SDL_WebXR_EndSession st (some a)).freeLog = st.freeLog ++ [a]
    ∧ (SDL_WebXR_EndSession (SDL_WebXR_EndSession st (some a)) (some a)).g_session
        = (if st.g_session = some a then none else st.g_session)
    ∧ (SDL_WebXR_EndSession (SDL_WebXR_EndSession st (some a)) (some a)).freeLog
        = st.freeLog ++ [a, a] := by
  refine ⟨rfl, endSession_some_gSession st a, ?_, ?_, ?_, ?_⟩
  · unfold SDL_WebXR_EndSession
    by_cases hg : st.g_session = some a <;> simp [hg]
  · unfold SDL_WebXR_EndSession
    by_cases hg : st.g_session = some a <;> simp [hg]
  · rw [endSession_some_gSession, endSession_some_gSession]
    by_cases hg : st.g_session = some a <;> simp [hg]
  · unfold SDL_WebXR_EndSession
    by_cases hg : st.g_session = some a <;> simp [hg]

/-- C5: when the state precondition holds and the environment reports
more than two views, `SDL_WebXR_BeginFrame` clamps the output frame's
view count to exactly 2 and still returns true. -/
theorem C5_beginFrame_clamp (env : Env) (st : XRState) (a : Nat) (f : Frame)
    (hstate : st.envSessionState = SessionState.running ∨
      st.envSessionState = SessionState.visible ∨
      st.envSessionState = SessionState.visibleBlurred)
    (hv : 2 < env.view_count) :
    (SDL_WebXR_BeginFrame env st (some a) (some f)).1 = true
    ∧ ((SDL_WebXR_BeginFrame env st (some a) (some f)).2.2).map Frame.viewCount
        = some 2 := by
  have hns : ¬ (st.envSessionState ≠ SessionState.running ∧
      st.envSessionState ≠ SessionState.visible ∧
      st.envSessionState ≠ SessionState.visibleBlurred) := by
    rcases hstate with h | h | h <;> simp [h]
  have hv0 : ¬ env.view_count ≤ 0 := by omega
  rw [beginFrame_valid_eq env st a f hns hv0]
  refine ⟨rfl, ?_⟩
  have hcl : clampCount env.view_count = 2 := by
    unfold clampCount
    rw [if_pos hv]
  simp [beginFrameLoop_viewCount, hcl]

/-- C5 witness: with the environment reporting three views, the
returned frame holds exactly two. -/
theorem C5_beginFrame_clamp_witness :
    (stRun.envSessionState = SessionState.running ∧ (2 : Int) < env3.view_count)
    ∧ ((SDL_WebXR_BeginFrame env3 stRun (some 0) (some frame0)).1 = true
      ∧ ((SDL_WebXR_BeginFrame env3 stRun (some 0) (some frame0)).2.2).map
          Frame.viewCount = some 2) :=
  ⟨⟨rfl, by decide⟩,
    C5_beginFrame_clamp env3 stRun 0 frame0 (Or.inl rfl) (by decide)⟩

/-- C6: when the state precondition holds and the view count is
positive, every in-range view slot of the output frame is filled by
three independent fetches: the projection matrix is the fetched one
when the projection fetch succeeds and the all-zero matrix when it
fails, and likewise, independently, for the view matrix and for the
viewport rectangle — and the call returns true regardless of which
fetches failed. -/
theorem C6_beginFrame_perView (env : Env) (st : XRState) (a : Nat) (f : Frame)
    (i : Fin 2)
    (hstate : st.envSessionState = SessionState.running ∨
      st.envSessionState = SessionState.visible ∨
      st.envSessionState = SessionState.visibleBlurred)
    (hv : 0 < env.view_count)
    (hi : (i : Nat) < (clampCount env.view_count).toNat) :
    (SDL_WebXR_BeginFrame env st (some a) (some f)).1 = true
    ∧ getView (SDL_WebXR_BeginFrame env st (some a) (some f)).2.2 i
        = some { projectionMatrix := (env.projection i).getD zeroMat
                 viewMatrix := (env.transform i).getD zeroMat
                 viewportX := ((env.viewport i).getD (0, 0, 0, 0)).1
                 viewportY := ((env.viewport i).getD (0, 0, 0, 0)).2.1
                 viewportWidth := ((env.viewport i).getD (0, 0, 0, 0)).2.2.1
                 viewportHeight := ((env.viewport i).getD (0, 0, 0, 0)).2.2.2 } := by
  have hns : ¬ (st.envSessionState ≠ SessionState.running ∧
      st.envSessionState ≠ SessionState.visible ∧
      st.envSessionState ≠ SessionState.visibleBlurred) := by
    rcases hstate with h | h | h <;> simp [h]
  have hv0 : ¬ env.view_count ≤ 0 := by omega
  rw [beginFrame_valid_eq env st a f hns hv0]
  refine ⟨rfl, ?_⟩
  simp only [getView]
  rw [beginFrameLoop_views env _ _ i hi]
  unfold fetchView
  cases hp : env.projection i <;> cases ht : env.transform i <;>
    cases hvp : env.viewport i <;> simp

/-- C6 witness: with the projection fetch failing for view 1 but
succeeding for view 0, `BeginFrame` returns true, view 0 carries the
fetched projection and viewport, and view 1 carries an all-zero
projection and viewport while keeping its fetched view matrix. -/
theorem C6_beginFrame_perView_witness :
    (stRun.envSessionState = SessionState.running
      ∧ (0 : Int) < env6.view_count
      ∧ (1 : Nat) < (clampCount env6.view_count).toNat)
    ∧ ((SDL_WebXR_BeginFrame env6 stRun (some 0) (some frame0)).1 = true
      ∧ getView (SDL_WebXR_BeginFrame env6 stRun (some 0) (some frame0)).2.2 0
          = some { projectionMatrix := fun _ => 7, viewMatrix := fun _ => 3
                   viewportX := 1, viewportY := 2
                   viewportWidth := 3, viewportHeight := 4 }
      ∧ getView (SDL_WebXR_BeginFrame env6 stRun (some 0) (some frame0)).2.2 1
          = some { projectionMatrix := zeroMat, viewMatrix := fun _ => 3
                   viewportX := 0, viewportY := 0
                   viewportWidth := 0, viewportHeight := 0 }) := by
  refine ⟨⟨rfl, by decide, by decide⟩, ?_, ?_, ?_⟩
  · exact (C6_beginFrame_perView env6 stRun 0 frame0 0 (Or.inl rfl)
      (by decide) (by decide)).1
  · have h := (C6_beginFrame_perView env6 stRun 0 frame0 0 (Or.inl rfl)
      (by decide) (by decide)).2
    rw [h]; decide
  · have h := (C6_beginFrame_perView env6 stRun 0 frame0 1 (Or.inl rfl)
      (by decide) (by decide)).2
    rw [h]; decide

/-- C10: with non-NULL pointers and a valid state, a non-positive
environment-reported view count makes `SDL_WebXR_BeginFrame` return
false, yet the reported count has already been written into the output
frame's viewCount field (the rest of the frame is untouched) — unlike
the NULL-argument and invalid-state failure paths, which leave the
frame buffer entirely unchanged. -/
theorem C10_beginFrame_nonpositive (env : Env) (st : XRState) (a : Nat) (f : Frame)
    (hstate : st.envSessionState = SessionState.running ∨
      st.envSessionState = SessionState.visible ∨
      st.envSessionState = SessionState.visibleBlurred)
    (hv : env.view_count ≤ 0) :
    (SDL_WebXR_BeginFrame env st (some a) (some f)).1 = false
    ∧ (SDL_WebXR_BeginFrame env st (some a) (some f)).2.2
        = some { f with viewCount := env.view_count } := by
  have hns : ¬ (st.envSessionState ≠ SessionState.running ∧
      st.envSessionState ≠ SessionState.visible ∧
      st.envSessionState ≠ SessionState.visibleBlurred) := by
    rcases hstate with h | h | h <;> simp [h]
  simp only [SDL_WebXR_BeginFrame, SDL_WebXR_GetSessionState]
  rw [if_neg hns, if_pos hv]
  exact ⟨rfl, rfl⟩

/-- C10 witness: a stale caller view count of 5 is overwritten with the
reported -1 even though the call fails. -/
theorem C10_beginFrame_nonpositive_witness :
    (stRun.envSessionState = SessionState.running ∧ envNeg.view_count ≤ 0)
    ∧ ((SDL_WebXR_BeginFrame envNeg stRun (some 0) (some frame5)).1 = false
      ∧ (SDL_WebXR_BeginFrame envNeg stRun (some 0) (some frame5)).2.2
          = some { frame5 with viewCount := -1 }) :=
  ⟨⟨rfl, by decide⟩,
    C10_beginFrame_nonpositive envNeg stRun 0 frame5 (Or.inl rfl) (by decide)⟩

/-- C7: an environment failure callback delivered with a message while
a session exists keeps the session alive, sets its state to IDLE,
clears its initialized flag, and records the message in the last-error
slot (prefixed by the fixed format string, so the stored error carries
the callback's message).  The callback is a total function: no path
aborts the process. -/
theorem C7_onSessionFailed (st : XRState) (a : Nat) (sess : Session) (msg : String)
    (hg : st.g_session = some a) (hh : heapGet st.heap a = some sess) :
    (evSessionFailed st (some msg)).g_session = st.g_session
    ∧ heapGet (evSessionFailed st (some msg)).heap a
        = some { sess with state := SessionState.idle, initDone := false }
    ∧ (evSessionFailed st (some msg)).lastError
        = some ("WebXR session failed: " ++ msg) := by
  simp [evSessionFailed, webxr_on_session_failed, hg, heapGet_heapModify, hh]

/-- C7 witness: a failure callback with message "denied" on a state
holding a freshly requested session. -/
theorem C7_onSessionFailed_witness :
    (st1.g_session = some 0 ∧ heapGet st1.heap 0 = some sess0)
    ∧ ((evSessionFailed st1 (some ("denied"))).g_session = st1.g_session
      ∧ heapGet (evSessionFailed st1 (some ("denied"))).heap 0
          = some { sess0 with state := SessionState.idle, initDone := false }
      ∧ (evSessionFailed st1 (some ("denied"))).lastError
          = some ("WebXR session failed: denied")) := by
  have h := C7_onSessionFailed st1 0 sess0 ("denied") (by decide) (by decide)
  refine ⟨⟨by decide, by decide⟩, h.1, h.2.1, ?_⟩
  rw [h.2.2]; decide

/-- C8: after an environment success callback carrying a reference-space
string while a session exists, `SDL_WebXR_GetSessionState` on that
session returns RUNNING and the session stores the string truncated by
`SDL_strlcpy` to the 31 characters that fit the 32-byte buffer — equal
to the delivered string whenever it fits, and a NUL-terminated
truncation (never an overflow) otherwise. -/
theorem C8_onSessionStarted (st : XRState) (a : Nat) (sess : Session) (s : String)
    (hg : st.g_session = some a) (hh : heapGet st.heap a = some sess) :
    (SDL_WebXR_GetSessionState (evSessionStarted st (some s)) (some a)).1
        = SessionState.running
    ∧ heapGet (evSessionStarted st (some s)).heap a
        = some { sess with state := SessionState.running, initDone := true,
                           refSpaceTypeString := sdlStrlcpy s 32 }
    ∧ (sdlStrlcpy s 32).data = s.data.take 31
    ∧ (sdlStrlcpy s 32).length ≤ 31
    ∧ (s.length ≤ 31 → sdlStrlcpy s 32 = s) := by
  refine ⟨?_, ?_, rfl, ?_, ?_⟩
  · show (evSessionStarted st (some s)).envSessionState = SessionState.running
    simp [evSessionStarted, webxr_on_session_started, hg]
  · simp [evSessionStarted, webxr_on_session_started, hg, heapGet_heapModify, hh]
  · show (s.data.take 31).length ≤ 31
    simp
  · intro hl
    show (⟨s.data.take 31⟩ : String) = s
    rw [List.take_of_length_le hl]

/-- C8 witness: the success callback with "local-floor" (which fits the
buffer) stores it verbatim and makes `GetSessionState` report RUNNING;
a 53-character string is stored as its 31-character truncation. -/
theorem C8_onSessionStarted_witness :
    (st1.g_session = some 0 ∧ heapGet st1.heap 0 = some sess0)
    ∧ ((SDL_WebXR_GetSessionState (evSessionStarted st1 (some ("local-floor")))
          (some 0)).1 = SessionState.running
      ∧ heapGet (evSessionStarted st1 (some ("local-floor"))).heap 0
          = some { sess0 with state := SessionState.running, initDone := true,
                              refSpaceTypeString := "local-floor" }
      ∧ sdlStrlcpy ("local-floor") 32 = "local-floor"
      ∧ (sdlStrlcpy longRefSpace 32).data = longRefSpace.data.take 31
      ∧ (sdlStrlcpy longRefSpace 32).length ≤ 31) := by
  have h := C8_onSessionStarted st1 0 sess0 ("local-floor") (by decide) (by decide)
  have h2 := C8_onSessionStarted st1 0 sess0 longRefSpace (by decide) (by decide)
  have he : sdlStrlcpy ("local-floor") 32 = "local-floor" :=
    h.2.2.2.2 (by decide)
  refine ⟨⟨by decide, by decide⟩, h.1, ?_, he, h2.2.2.1, h2.2.2.2.1⟩
  rw [h.2.1, he]

/-- C9: in any reachable state in which the environment's probe answer
for a mode is cached (the tri-state cell is no longer -1), an
`SDL_WebXR_IsSessionModeSupported` call for that mode returns exactly
that cached definitive answer, changes no state, and triggers no new
probe; moreover no system step — API call or environment callback —
ever changes that cached cell again, so every later call keeps
returning the same answer (a once-only latch per mode). -/
theorem C9_isModeSupported_latch (env : Env) (st st' : XRState) (m : SessionMode)
    (hre : Reachable env st)
    (hc : st.modeCache (modeIdx m) ≠ -1) :
    ((SDL_WebXR_IsSessionModeSupported env st m).1 = env.mode_support m
      ∧ (SDL_WebXR_IsSessionModeSupported env st m).2.1 = st
      ∧ (SDL_WebXR_IsSessionModeSupported env st m).2.2 = false)
    ∧ (Step env st st' → st'.modeCache (modeIdx m) = st.modeCache (modeIdx m)) := by
  obtain ⟨h1, h2, h3⟩ := reachable_inv env hre
  obtain ⟨hsup, hval⟩ := h3 (modeIdx m) hc
  rw [modeOfIdx_modeIdx] at hval
  have hc1 : ¬ SDL_WebXR_IsAvailable env = false := by
    simp [SDL_WebXR_IsAvailable, hsup]
  have hc2 : 0 ≤ st.modeCache (modeIdx m) := by
    rw [hval]; cases env.mode_support m <;> decide
  constructor
  · unfold SDL_WebXR_IsSessionModeSupported
    rw [if_neg hc1, if_pos hc2]
    refine ⟨?_, rfl, rfl⟩
    rw [hval]
    cases env.mode_support m <;> rfl
  · intro hstep
    cases hstep with
    | request m2 r2 => rw [(requestSession_cachePending env st m2 r2).2]
    | isMode m2 => rw [(isModeSupported_cacheSession env st m2).2]
    | getState p => rw [(getSessionState_fields st p).2.2]
    | endSession p => rw [(endSession_cachePending st p).2]
    | begin p f => rw [(beginFrame_fields env st p f).2.2]
    | endFrame p => rw [endFrame_fields st p]
    | bind p d => rw [(bindGPUDevice_fields st p d).2.2]
    | started s => rw [(evSessionStarted_fields st s).2.2]
    | ended => rw [(evSessionEnded_fields st).2.2]
    | failed s => rw [(evSessionFailed_fields st s).2.2]
    | modeCb m2 hmem =>
      rw [evModeSupported_modeCache]
      by_cases he : modeIdx m2 = modeIdx m
      · have hm2 : m2 = m := by
          have hcg := congrArg modeOfIdx he
          rwa [modeOfIdx_modeIdx, modeOfIdx_modeIdx] at hcg
        rw [he, Function.update_same, hm2, hval]
      · rw [Function.update_noteq (fun hh => he hh.symm)]

/-- C9 witness: from process start, a first call for the inline mode
triggers a probe, the environment's callback caches the answer, and the
next call returns the cached true, leaves the state unchanged and
triggers no probe; the cell survives a further step unchanged. -/
theorem C9_isModeSupported_latch_witness :
    stCached.modeCache (modeIdx .inlineMode) ≠ -1
    ∧ (((SDL_WebXR_IsSessionModeSupported env0 stCached .inlineMode).1 = true
      ∧ (SDL_WebXR_IsSessionModeSupported env0 stCached .inlineMode).2.1 = stCached
      ∧ (SDL_WebXR_IsSessionModeSupported env0 stCached .inlineMode).2.2 = false)
      ∧ (Step env0 stCached stCached →
          stCached.modeCache (modeIdx .inlineMode)
            = stCached.modeCache (modeIdx .inlineMode))) := by
  have hre : Reachable env0 stCached :=
    Reachable.step
      (Reachable.step Reachable.init (Step.isMode initState SessionMode.inlineMode))
      (Step.modeCb stProbe SessionMode.inlineMode (by decide))
  have h := C9_isModeSupported_latch env0 stCached stCached SessionMode.inlineMode
    hre (by decide)
  refine ⟨by decide, ⟨?_, h.1.2.1, h.1.2.2⟩, h.2⟩
  rw [h.1.1]; decide

end WebXR
